import Mathlib

/-!
Verification of the events-api backend against its specification.

The definitions below are a shallow embedding of src/api.js and of the
standalone variant: SQL statements over the users and events tables become
pure functions on lists of rows, the Redis set of live refresh tokens becomes
a list of tokens with set semantics, and signed JWTs become records carrying
the payload, the signing secret, the optional expiry and the issued-at
instant. Times are epoch milliseconds as Nat or Int; fallible lookups return
Option. Every definition keeps the name of the source function it embeds.
-/

namespace EventsApi

/-- JWT payload signed by all three token issuers: the pair {id, email}. -/
structure Claims where
  id : Nat
  email : String
deriving DecidableEq

/-- Model of a signed JWT string: the payload, the secret it was signed with,
the optional expiry instant coming from expiresIn, and the issued-at claim
that jwt.sign always embeds, which makes tokens minted at different instants
distinct strings. Two tokens are equal exactly when the signed strings
coincide. -/
structure Token where
  payload : Claims
  secret : String
  exp : Option Nat
  iat : Nat
deriving DecidableEq

/-- Outcome of jwt.verify: the decoded payload or an error. -/
inductive VerifyResult where
  | ok (claims : Claims)
  | err
deriving DecidableEq

/-- jwt.verify(token, secret): fails when the token was not signed with the
given secret or when the exp claim is at or before the current instant. -/
def jwtVerify (tok : Token) (secret : String) (now : Nat) : VerifyResult :=
  if tok.secret = secret then
    match tok.exp with
    | some e => if e ≤ now then VerifyResult.err else VerifyResult.ok tok.payload
    | none => VerifyResult.ok tok.payload
  else VerifyResult.err

/-- The three signing secrets read from the environment: ACCESS_TOKEN_SECRET,
REFRESH_TOKEN_SECRET and RESET_TOKEN_SECRET. -/
structure Secrets where
  access : String
  refresh : String
  reset : String
deriving DecidableEq

/-- The 24h expiresIn of generateAccessToken, in milliseconds. -/
def ACCESS_TOKEN_TTL_MS : Nat := 24 * 60 * 60 * 1000

/-- The 1h expiresIn of generateResetToken, in milliseconds. -/
def RESET_TOKEN_TTL_MS : Nat := 60 * 60 * 1000

/-- generateAccessToken: sign {id, email} with the access secret, 24h expiry. -/
def generateAccessToken (s : Secrets) (u : Claims) (now : Nat) : Token :=
  ⟨u, s.access, some (now + ACCESS_TOKEN_TTL_MS), now⟩

/-- generateRefreshToken: sign {id, email} with the refresh secret, no expiry
claim. -/
def generateRefreshToken (s : Secrets) (u : Claims) (now : Nat) : Token :=
  ⟨u, s.refresh, none, now⟩

/-- generateResetToken: sign {id, email} with the reset secret, 1h expiry. -/
def generateResetToken (s : Secrets) (u : Claims) (now : Nat) : Token :=
  ⟨u, s.reset, some (now + RESET_TOKEN_TTL_MS), now⟩

/-- A row of the users table. -/
structure UserRow where
  id : Nat
  email : String
  password : String
  first_name : String
  last_name : String
  phone_number : String
deriving DecidableEq

/-- SELECT * FROM users WHERE email = ? : the matching rows in table order. -/
def selectByEmail (db : List UserRow) (email : String) : List UserRow :=
  db.filter (fun u => u.email == email)

/-- findUserBasedOnCredentials: take the first row with the given email and
return undefined unless its stored password equals the candidate exactly;
on success return only {id, email}. -/
def findUserBasedOnCredentials (db : List UserRow) (email password : String) :
    Option Claims :=
  match (selectByEmail db email).head? with
  | none => none
  | some user =>
    if user.password ≠ password then none else some ⟨user.id, user.email⟩

/-- The Authorization header of an inbound request: absent, present without a
usable Bearer part (so jwt.verify receives garbage), or carrying a token. -/
inductive AuthHeader where
  | absent
  | malformed
  | bearer (t : Token)

/-- Outcome of the verifyToken middleware. -/
inductive MwResult where
  | unauthorized401
  | forbidden403
  | pass (user : Claims)
deriving DecidableEq

/-- verifyToken middleware: 401 without an Authorization header; 403 when
jwt.verify of the Bearer part against the access secret fails; otherwise the
decoded claims are attached to req.user and control passes on. -/
def verifyToken (s : Secrets) (h : AuthHeader) (now : Nat) : MwResult :=
  match h with
  | AuthHeader.absent => MwResult.unauthorized401
  | AuthHeader.malformed => MwResult.forbidden403
  | AuthHeader.bearer t =>
    match jwtVerify t s.access now with
    | VerifyResult.err => MwResult.forbidden403
    | VerifyResult.ok u => MwResult.pass u

/-- Body of POST /users/register. A missing field and the empty string are
both falsy in the source guard, so an absent field is modelled as the empty
string. -/
structure RegisterBody where
  email : String
  password : String
  first_name : String
  last_name : String
  phone_number : String
  confirm_password : String
deriving DecidableEq

/-- The users store together with the AUTO_INCREMENT counter of the id
column, which the INSERT returns as insertId. -/
structure UsersDb where
  rows : List UserRow
  nextId : Nat
deriving DecidableEq

/-- Response of POST /users/register. -/
inductive RegisterResult where
  | badRequest400
  | conflict409
  | ok (id : Nat) (email : String) (accessToken refreshToken : Token)
deriving DecidableEq

/-- POST /users/register: 400 on a falsy field or password mismatch; then the
existence check calls findUserBasedOnCredentials, i.e. it matches on email
AND password together; only when that returns undefined is a row inserted and
a token pair minted. -/
def registerHandler (s : Secrets) (st : UsersDb) (b : RegisterBody)
    (now : Nat) : RegisterResult × UsersDb :=
  if b.email == "" || b.password == "" || b.first_name == "" ||
      b.last_name == "" || b.phone_number == "" || b.confirm_password == "" then
    (RegisterResult.badRequest400, st)
  else if b.password ≠ b.confirm_password then (RegisterResult.badRequest400, st)
  else
    match findUserBasedOnCredentials st.rows b.email b.password with
    | some _ => (RegisterResult.conflict409, st)
    | none =>
      let user_id := st.nextId
      let row : UserRow :=
        ⟨user_id, b.email, b.password, b.first_name, b.last_name, b.phone_number⟩
      (RegisterResult.ok user_id b.email
          (generateAccessToken s ⟨user_id, b.email⟩ now)
          (generateRefreshToken s ⟨user_id, b.email⟩ now),
        ⟨st.rows ++ [row], st.nextId + 1⟩)

/-- redisClient.sAdd on the refreshTokens set. -/
def addRefreshTokenToRedis (redis : List Token) (t : Token) : List Token :=
  if redis.contains t then redis else redis ++ [t]

/-- redisClient.sRem on the refreshTokens set. -/
def removeRefreshTokenFromRedis (redis : List Token) (t : Token) : List Token :=
  redis.filter (fun x => !(x == t))

/-- redisClient.sIsMember on the refreshTokens set. -/
def refreshTokenExistsInRedis (redis : List Token) (t : Token) : Bool :=
  redis.contains t

/-- Truthiness of a JS Promise object: a Promise is an object and objects are
truthy, whatever Boolean the Promise later resolves to. The eventual
resolution is kept as the argument so that call sites show which value the
source forgot to await. -/
def promiseIsTruthy (_resolution : Bool) : Bool := true

/-- Response of POST /users/refresh. -/
inductive RefreshResult where
  | unauthenticated401
  | forbidden403
  | ok (accessToken refreshToken : Token)
deriving DecidableEq

/-- POST /users/refresh of the session-tracking variant. The membership guard
in the source reads if (!refreshTokenExistsInRedis(refreshToken)) without
awaiting, so it tests the truthiness of the Promise object and not the
membership Boolean. On success the original token is removed from the set and
the newly minted refresh token is added (both fire-and-forget; the returned
state is the one reached once both land, in program order). -/
def refreshHandler (s : Secrets) (redis : List Token) (body : Option Token)
    (now : Nat) : RefreshResult × List Token :=
  match body with
  | none => (RefreshResult.unauthenticated401, redis)
  | some t =>
    if !(promiseIsTruthy (refreshTokenExistsInRedis redis t)) then
      (RefreshResult.forbidden403, redis)
    else
      match jwtVerify t s.refresh now with
      | VerifyResult.err => (RefreshResult.forbidden403, redis)
      | VerifyResult.ok u =>
        let redis1 := removeRefreshTokenFromRedis redis t
        let newAccessToken := generateAccessToken s u now
        let newRefreshToken := generateRefreshToken s u now
        (RefreshResult.ok newAccessToken newRefreshToken,
          addRefreshTokenToRedis redis1 newRefreshToken)

/-- isValidResetToken: jwt.verify against the reset secret inside try/catch,
reported as a Boolean. -/
def isValidResetToken (s : Secrets) (t : Token) (now : Nat) : Bool :=
  match jwtVerify t s.reset now with
  | VerifyResult.ok _ => true
  | VerifyResult.err => false

/-- getUserIdFromResetToken: decode the id claim, null on a bad token. -/
def getUserIdFromResetToken (s : Secrets) (t : Token) (now : Nat) : Option Nat :=
  match jwtVerify t s.reset now with
  | VerifyResult.ok c => some c.id
  | VerifyResult.err => none

/-- setNewPassword: UPDATE users SET password = ? WHERE id = ?. -/
def setNewPassword (db : List UserRow) (password : String)
    (userId : Option Nat) : List UserRow :=
  db.map (fun u =>
    if some u.id = userId then
      ⟨u.id, u.email, password, u.first_name, u.last_name, u.phone_number⟩
    else u)

/-- Status of the reset-flow endpoints. -/
inductive ResetStatus where
  | badRequest400
  | forbidden403
  | ok200
deriving DecidableEq

/-- POST /verify-reset-token: 400 on a falsy body token, 403 on an invalid
token, otherwise 200. The users store is returned untouched because the
handler performs no store call. -/
def verifyResetTokenHandler (s : Secrets) (db : List UserRow)
    (body : Option Token) (now : Nat) : ResetStatus × List UserRow :=
  match body with
  | none => (ResetStatus.badRequest400, db)
  | some t =>
    if !(isValidResetToken s t now) then (ResetStatus.forbidden403, db)
    else (ResetStatus.ok200, db)

/-- POST /set-new-password. The source assigns the un-awaited Promise of
setNewPassword to newPasswordSet and branches on that object, so the guard
after the update sees Promise truthiness and never the outcome of the store
write; updateResolves records whether the store write itself lands. -/
def setNewPasswordHandler (s : Secrets) (db : List UserRow)
    (body : Option Token) (password : Option String) (updateResolves : Bool)
    (now : Nat) : ResetStatus × List UserRow :=
  match body, password with
  | some t, some pw =>
    if pw == "" then (ResetStatus.badRequest400, db)
    else if !(isValidResetToken s t now) then (ResetStatus.forbidden403, db)
    else
      let userId := getUserIdFromResetToken s t now
      let db1 := if updateResolves then setNewPassword db pw userId else db
      if !(promiseIsTruthy updateResolves) then (ResetStatus.forbidden403, db)
      else (ResetStatus.ok200, db1)
  | _, _ => (ResetStatus.badRequest400, db)

/-- A row of the events table; from_date and to_date as epoch milliseconds. -/
structure EventRow where
  id : Nat
  name : String
  description : String
  location : String
  from_date : Int
  to_date : Int
  contact : String
  user_id : Nat
deriving DecidableEq

/-- getEvents: SELECT * FROM events WHERE user_id = caller. -/
def getEvents (db : List EventRow) (user_id : Nat) : List EventRow :=
  db.filter (fun e => e.user_id == user_id)

/-- getEventById: SELECT * FROM events WHERE id = ? AND user_id = caller. -/
def getEventById (db : List EventRow) (id user_id : Nat) : Option EventRow :=
  (db.filter (fun e => e.id == id && e.user_id == user_id)).head?

/-- removeEvent: DELETE FROM events WHERE id = ? AND user_id = caller. -/
def removeEvent (db : List EventRow) (id user_id : Nat) : List EventRow :=
  db.filter (fun e => !(e.id == id && e.user_id == user_id))

/-- The six columns set by the body of PUT /events/:id. -/
structure EventUpdate where
  name : String
  description : String
  location : String
  from_date : Int
  to_date : Int
  contact : String
deriving DecidableEq

/-- updateEvent: UPDATE events SET name, description, location, from_date,
to_date, contact WHERE id = ? — the WHERE clause carries no user_id
condition and the owning user id is not even a parameter of the function. -/
def updateEvent (db : List EventRow) (id : Nat) (u : EventUpdate) :
    List EventRow :=
  db.map (fun e =>
    if e.id == id then
      ⟨e.id, u.name, u.description, u.location, u.from_date, u.to_date,
        u.contact, e.user_id⟩
    else e)

/-- 1970-based UTC calendar day of an epoch-millisecond instant. -/
def dayOfMs (ms : Int) : Int := Int.fdiv ms 86400000

/-- How new Date(string) reads the request parameter: ECMAScript parses a
date-only form such as 2024-03-15 as UTC, and a date-time form without an
offset such as 2024-03-15T00:00:00 as local time of the server process.
wallClockMs is the epoch-millisecond value of the written digits read as
UTC. -/
inductive DateInput where
  | utcParsed (wallClockMs : Int)
  | localParsed (wallClockMs : Int)
deriving DecidableEq

/-- new Date(date).getTime() on a server whose getTimezoneOffset() is off
minutes (UTC minus local time). -/
def parseDateMs (off : Int) : DateInput → Int
  | DateInput.utcParsed w => w
  | DateInput.localParsed w => w + off * 60000

/-- The normalization inside getEventForCertainDate: the parsed time minus
getTimezoneOffset()/60 hours; off/60 hours in milliseconds is exactly
off * 60000. -/
def normalizedDateMs (off : Int) (d : DateInput) : Int :=
  parseDateMs off d - off * 60000

/-- getEventForCertainDate: SELECT * FROM events WHERE DATE(from_date) = ?
AND user_id = caller, with the normalized date bound to the placeholder. The
comparison done by the store is modelled as equality of the UTC calendar days
of the two sides; off is the timezone offset of the server process. -/
def getEventForCertainDate (db : List EventRow) (off : Int) (d : DateInput)
    (user_id : Nat) : List EventRow :=
  db.filter (fun e =>
    dayOfMs e.from_date == dayOfMs (normalizedDateMs off d) &&
      e.user_id == user_id)

/-- Concrete secrets used by witnesses and counterexamples. -/
def cSecrets : Secrets := ⟨"access-secret", "refresh-secret", "reset-secret"⟩

/-- A refresh token of user 1 minted at instant 0. -/
def rTok : Token := ⟨⟨1, "a@b.c"⟩, "refresh-secret", none, 0⟩

/-- A reset token of user 1 minted at instant 0, expiring at 3600000. -/
def cResetTok : Token := ⟨⟨1, "a@b.c"⟩, "reset-secret", some 3600000, 0⟩

/-- A stored user row. -/
def cUser : UserRow := ⟨1, "a@b.c", "pw1", "Ana", "Pop", "07"⟩

/-- A users store already holding a row with email a@b.c. -/
def c7Db : UsersDb := ⟨[⟨1, "a@b.c", "oldpw", "Ana", "Pop", "07"⟩], 2⟩

/-- A well-formed registration body reusing that email with a different
password. -/
def c7Body : RegisterBody := ⟨"a@b.c", "newpw", "Ana", "Pop", "07", "newpw"⟩

/-- An event row owned by user 2. -/
def bEvent : EventRow := ⟨5, "bbq", "d", "l", 0, 0, "c", 2⟩

/-- The update body sent by user 1 against event 5. -/
def aUpd : EventUpdate := ⟨"hacked", "d2", "l2", 1, 2, "c2"⟩

/-- An event of user 1 starting at UTC midnight of 2024-03-15
(day 19797 since 1970). -/
def c4Event : EventRow :=
  ⟨7, "party", "d", "l", 1710460800000, 1710547200000, "c", 1⟩

/-- The date-only request parameter 2024-03-15, parsed as UTC. -/
def c4Input : DateInput := DateInput.utcParsed 1710460800000

/-- jwt.verify fails whenever the token was signed with a different secret. -/
theorem jwtVerify_wrong_secret (tok : Token) (secret : String) (now : Nat)
    (h : tok.secret ≠ secret) : jwtVerify tok secret now = VerifyResult.err := by
  unfold jwtVerify
  rw [if_neg h]

/-- jwt.verify fails whenever the exp claim is at or before the current
instant, whatever the secret. -/
theorem jwtVerify_expired (tok : Token) (secret : String) (now e : Nat)
    (hexp : tok.exp = some e) (he : e ≤ now) :
    jwtVerify tok secret now = VerifyResult.err := by
  unfold jwtVerify
  by_cases hs : tok.secret = secret
  · rw [if_pos hs, hexp]
    simp [he]
  · rw [if_neg hs]

/-- jwt.verify decodes the payload when the secret matches and the token is
not expired. -/
theorem jwtVerify_valid (tok : Token) (secret : String) (now : Nat)
    (hs : tok.secret = secret) (he : ∀ e, tok.exp = some e → now < e) :
    jwtVerify tok secret now = VerifyResult.ok tok.payload := by
  unfold jwtVerify
  rw [if_pos hs]
  cases hexp : tok.exp with
  | none => rfl
  | some e =>
    have hlt := he e hexp
    simp [Nat.not_le.mpr hlt]

/-- The middleware answers 403 exactly when jwt.verify errs on the Bearer
token. -/
theorem verifyToken_of_err (s : Secrets) (t : Token) (now : Nat)
    (h : jwtVerify t s.access now = VerifyResult.err) :
    verifyToken s (AuthHeader.bearer t) now = MwResult.forbidden403 := by
  simp [verifyToken, h]

/-- The middleware passes the decoded claims when jwt.verify succeeds. -/
theorem verifyToken_of_ok (s : Secrets) (t : Token) (now : Nat) (c : Claims)
    (h : jwtVerify t s.access now = VerifyResult.ok c) :
    verifyToken s (AuthHeader.bearer t) now = MwResult.pass c := by
  simp [verifyToken, h]

/-- C5: the Request Authenticator answers 401 when the Authorization header
is absent, 403 when the Bearer part fails signature checking (including a
header without a usable Bearer part) or carries an expired token, and
otherwise attaches the decoded {id, email} claims and passes control. -/
theorem verifyToken_spec (s : Secrets) (now : Nat) :
    verifyToken s AuthHeader.absent now = MwResult.unauthorized401 ∧
    verifyToken s AuthHeader.malformed now = MwResult.forbidden403 ∧
    (∀ t : Token, t.secret ≠ s.access →
      verifyToken s (AuthHeader.bearer t) now = MwResult.forbidden403) ∧
    (∀ t : Token, ∀ e : Nat, t.exp = some e → e ≤ now →
      verifyToken s (AuthHeader.bearer t) now = MwResult.forbidden403) ∧
    (∀ t : Token, t.secret = s.access → (∀ e, t.exp = some e → now < e) →
      verifyToken s (AuthHeader.bearer t) now = MwResult.pass t.payload) := by
  refine ⟨rfl, rfl, ?_, ?_, ?_⟩
  · intro t ht
    exact verifyToken_of_err s t now (jwtVerify_wrong_secret t s.access now ht)
  · intro t e hexp he
    exact verifyToken_of_err s t now (jwtVerify_expired t s.access now e hexp he)
  · intro t hs he
    exact verifyToken_of_ok s t now t.payload (jwtVerify_valid t s.access now hs he)

/-- C5 witness: the four behaviours at concrete requests. -/
theorem verifyToken_spec_witness :
    verifyToken cSecrets AuthHeader.absent 0 = MwResult.unauthorized401 ∧
    verifyToken cSecrets (AuthHeader.bearer rTok) 0 = MwResult.forbidden403 ∧
    verifyToken cSecrets
        (AuthHeader.bearer ⟨⟨1, "a@b.c"⟩, "access-secret", some 5, 0⟩) 10 =
      MwResult.forbidden403 ∧
    verifyToken cSecrets
        (AuthHeader.bearer ⟨⟨1, "a@b.c"⟩, "access-secret", some 20, 0⟩) 10 =
      MwResult.pass ⟨1, "a@b.c"⟩ := by
  refine ⟨(verifyToken_spec cSecrets 0).1, ?_, ?_, ?_⟩
  · exact (verifyToken_spec cSecrets 0).2.2.1 rTok (by decide)
  · exact (verifyToken_spec cSecrets 10).2.2.2.1 _ 5 rfl (by decide)
  · refine (verifyToken_spec cSecrets 10).2.2.2.2 _ rfl ?_
    intro e he
    cases he
    decide

/-- C6: with unique emails in the store, findUserBasedOnCredentials returns
some {id, email} exactly when a row with that email exists whose stored
password equals the candidate byte-for-byte, and returns none, not an error,
on any mismatch or absent row. -/
theorem findUserBasedOnCredentials_spec (db : List UserRow) (e p : String)
    (huniq : ∀ u ∈ db, ∀ v ∈ db, u.email = v.email → u = v) :
    (∀ c : Claims, findUserBasedOnCredentials db e p = some c ↔
      ∃ u ∈ db, u.email = e ∧ u.password = p ∧ c = ⟨u.id, u.email⟩) ∧
    (findUserBasedOnCredentials db e p = none ↔
      ∀ u ∈ db, ¬(u.email = e ∧ u.password = p)) := by
  cases hsel : selectByEmail db e with
  | nil =>
    have hnone : ∀ u ∈ db, u.email ≠ e := by
      intro u hu
      have := List.filter_eq_nil_iff.mp hsel u hu
      simpa using this
    constructor
    · intro c
      constructor
      · intro hc
        rw [findUserBasedOnCredentials, hsel] at hc
        simp at hc
      · rintro ⟨u, hu, hue, _, _⟩
        exact absurd hue (hnone u hu)
    · constructor
      · intro _ u hu
        rintro ⟨hue, _⟩
        exact hnone u hu hue
      · intro _
        rw [findUserBasedOnCredentials, hsel]
        rfl
  | cons v rest =>
    have hv : v ∈ db ∧ v.email = e := by
      have hvmem : v ∈ selectByEmail db e := by
        rw [hsel]
        exact List.mem_cons_self v rest
      have := List.mem_filter.mp hvmem
      simpa using this
    have hvkey : ∀ u ∈ db, u.email = e → u = v :=
      fun u hu hue => huniq u hu v hv.1 (hue.trans hv.2.symm)
    rw [findUserBasedOnCredentials, hsel]
    simp only [List.head?]
    by_cases hpw : v.password = p
    · rw [if_neg (by simpa using hpw)]
      constructor
      · intro c
        constructor
        · intro hc
          refine ⟨v, hv.1, hv.2, hpw, ?_⟩
          simpa using hc.symm
        · rintro ⟨u, hu, hue, _, hc⟩
          rw [hvkey u hu hue] at hc
          rw [hc]
      · constructor
        · intro h
          simp at h
        · intro h
          exact absurd ⟨hv.2, hpw⟩ (h v hv.1)
    · rw [if_pos (by simpa using hpw)]
      constructor
      · intro c
        constructor
        · intro hc
          simp at hc
        · rintro ⟨u, hu, hue, hup, _⟩
          exact absurd ((hvkey u hu hue) ▸ hup) hpw
      · constructor
        · intro _ u hu
          rintro ⟨hue, hup⟩
          exact hpw ((hvkey u hu hue) ▸ hup)
        · intro _
          rfl

/-- C6 witness: the stored pair matches and a wrong password is a no-match. -/
theorem findUserBasedOnCredentials_spec_witness :
    findUserBasedOnCredentials [cUser] "a@b.c" "pw1" = some ⟨1, "a@b.c"⟩ ∧
    findUserBasedOnCredentials [cUser] "a@b.c" "bad" = none := by
  constructor
  · exact ((findUserBasedOnCredentials_spec [cUser] "a@b.c" "pw1"
      (by decide)).1 ⟨1, "a@b.c"⟩).mpr ⟨cUser, by simp [cUser]⟩
  · exact (findUserBasedOnCredentials_spec [cUser] "a@b.c" "bad"
      (by decide)).2.mpr (by decide)

/-- C8: a reset token is never consumed. With a valid unexpired token and a
nonempty password, verify-reset-token answers 200 and leaves the store
untouched, set-new-password answers 200 whatever the outcome of the store
write, and a landed write rewrites exactly the password of the user named in
the token claims. Each part holds for every store state, so arbitrarily
repeated calls with the same token keep succeeding until expiry. -/
theorem resetToken_never_consumed (s : Secrets) (t : Token) (pw : String)
    (now : Nat) (hv : isValidResetToken s t now = true) (hp : pw ≠ "") :
    (∀ db, verifyResetTokenHandler s db (some t) now = (ResetStatus.ok200, db)) ∧
    (∀ db b,
      (setNewPasswordHandler s db (some t) (some pw) b now).1 =
        ResetStatus.ok200) ∧
    (∀ db, (setNewPasswordHandler s db (some t) (some pw) true now).2 =
      setNewPassword db pw (getUserIdFromResetToken s t now)) := by
  refine ⟨?_, ?_, ?_⟩
  · intro db
    simp [verifyResetTokenHandler, hv]
  · intro db b
    simp [setNewPasswordHandler, hv, hp, promiseIsTruthy]
  · intro db
    simp [setNewPasswordHandler, hv, hp, promiseIsTruthy]

/-- C8 witness: the same still-fresh token verifies and resets twice in a
row. -/
theorem resetToken_never_consumed_witness :
    verifyResetTokenHandler cSecrets [cUser] (some cResetTok) 0 =
      (ResetStatus.ok200, [cUser]) ∧
    (setNewPasswordHandler cSecrets [cUser] (some cResetTok) (some "npw")
        true 0).1 = ResetStatus.ok200 ∧
    (setNewPasswordHandler cSecrets
        (setNewPasswordHandler cSecrets [cUser] (some cResetTok) (some "npw")
          true 0).2 (some cResetTok) (some "npw") true 0).1 =
      ResetStatus.ok200 := by
  have h := resetToken_never_consumed cSecrets cResetTok "npw" 0
    (by decide) (by decide)
  exact ⟨h.1 [cUser], h.2.1 [cUser] true, h.2.1 _ true⟩

/-- C9: with pairwise distinct secrets, a refresh token or a reset token
presented as a Bearer access token is rejected with 403 by the Request
Authenticator, and an access token presented to the reset flow is reported
invalid. -/
theorem token_kinds_not_interchangeable (s : Secrets) (u : Claims)
    (now minted : Nat) (h1 : s.access ≠ s.refresh) (h2 : s.access ≠ s.reset)
    (h3 : s.refresh ≠ s.reset) :
    verifyToken s (AuthHeader.bearer (generateRefreshToken s u minted)) now =
      MwResult.forbidden403 ∧
    verifyToken s (AuthHeader.bearer (generateResetToken s u minted)) now =
      MwResult.forbidden403 ∧
    isValidResetToken s (generateAccessToken s u minted) now = false ∧
    isValidResetToken s (generateRefreshToken s u minted) now = false := by
  refine ⟨?_, ?_, ?_, ?_⟩
  · exact verifyToken_of_err s _ now
      (jwtVerify_wrong_secret _ s.access now (fun hh => h1 hh.symm))
  · exact verifyToken_of_err s _ now
      (jwtVerify_wrong_secret _ s.access now (fun hh => h2 hh.symm))
  · simp [isValidResetToken,
      jwtVerify_wrong_secret (generateAccessToken s u minted) s.reset now h2]
  · simp [isValidResetToken,
      jwtVerify_wrong_secret (generateRefreshToken s u minted) s.reset now h3]

/-- C9 witness: cross-kind rejection at the concrete secrets. -/
theorem token_kinds_not_interchangeable_witness :
    verifyToken cSecrets
        (AuthHeader.bearer (generateRefreshToken cSecrets ⟨1, "a@b.c"⟩ 0)) 5 =
      MwResult.forbidden403 ∧
    verifyToken cSecrets
        (AuthHeader.bearer (generateResetToken cSecrets ⟨1, "a@b.c"⟩ 0)) 5 =
      MwResult.forbidden403 ∧
    isValidResetToken cSecrets (generateAccessToken cSecrets ⟨1, "a@b.c"⟩ 0) 5 =
      false ∧
    isValidResetToken cSecrets (generateRefreshToken cSecrets ⟨1, "a@b.c"⟩ 0) 5 =
      false :=
  token_kinds_not_interchangeable cSecrets ⟨1, "a@b.c"⟩ 5 0
    (by decide) (by decide) (by decide)

/-- C10: with a cryptographically valid unexpired reset token and a nonempty
password, POST /set-new-password answers 200 whether or not the store write
lands, because the 403 guard after the update tests the truthiness of the
un-awaited Promise and a Promise object is always truthy. -/
theorem setNewPasswordHandler_ignores_store_outcome (s : Secrets)
    (db : List UserRow) (t : Token) (pw : String) (b : Bool) (now : Nat)
    (hv : isValidResetToken s t now = true) (hp : pw ≠ "") :
    (setNewPasswordHandler s db (some t) (some pw) b now).1 =
      ResetStatus.ok200 := by
  simp [setNewPasswordHandler, hv, hp, promiseIsTruthy]

/-- C10 witness: the handler answers 200 even when the store write does not
land. -/
theorem setNewPasswordHandler_ignores_store_outcome_witness :
    (setNewPasswordHandler cSecrets [] (some cResetTok) (some "zz")
        false 0).1 = ResetStatus.ok200 :=
  setNewPasswordHandler_ignores_store_outcome cSecrets [] cResetTok "zz"
    false 0 (by decide) (by decide)

/-- C4 counterexample: the same date-only request 2024-03-15 from the same
user over the same stored rows returns the event on a server at UTC and
returns nothing on a server at UTC-10 (offset 600 minutes), so the result
depends on the timezone the server process runs in. -/
theorem getEventForCertainDate_server_tz_dependent :
    getEventForCertainDate [c4Event] 0 c4Input 1 = [c4Event] ∧
    getEventForCertainDate [c4Event] 600 c4Input 1 = [] := by
  constructor
  · rfl
  · rfl

/-- C4 amended: the query returns exactly the rows of the caller whose
from_date has the UTC calendar day of the normalized request date, the
normalization being parsed time minus the server offset; that cancels the
server offset only for inputs parsed as server-local date-times, where the
normalized instant is the written wall-clock instant independently of the
server timezone. -/
theorem getEventForCertainDate_spec (db : List EventRow) (off : Int)
    (d : DateInput) (uid : Nat) :
    (∀ e, e ∈ getEventForCertainDate db off d uid ↔
      e ∈ db ∧ dayOfMs e.from_date = dayOfMs (normalizedDateMs off d) ∧
        e.user_id = uid) ∧
    (∀ w, normalizedDateMs off (DateInput.localParsed w) = w) := by
  constructor
  · intro e
    simp [getEventForCertainDate, List.mem_filter, and_assoc]
  · intro w
    simp [normalizedDateMs, parseDateMs]

/-- C4 amended witness: membership at the concrete UTC server, and offset
cancellation for a local-parsed input at offset 600. -/
theorem getEventForCertainDate_spec_witness :
    (c4Event ∈ getEventForCertainDate [c4Event] 0 c4Input 1 ↔
      c4Event ∈ [c4Event] ∧
        dayOfMs c4Event.from_date = dayOfMs (normalizedDateMs 0 c4Input) ∧
        c4Event.user_id = 1) ∧
    normalizedDateMs 600 (DateInput.localParsed 42) = 42 :=
  ⟨(getEventForCertainDate_spec [c4Event] 0 c4Input 1).1 c4Event,
    (getEventForCertainDate_spec [c4Event] 600 c4Input 1).2 42⟩

/-- C1: the event row with id 5 belongs to user 2, yet updateEvent, the
operation run by PUT /events/:id, rewrites it with the body sent by the
authenticated user 1; the WHERE clause has no owning-user condition, so the
claimed owner filtering does not hold for update. -/
theorem updateEvent_ignores_owner :
    bEvent.user_id = 2 ∧
    updateEvent [bEvent] 5 aUpd =
      [⟨5, "hacked", "d2", "l2", 1, 2, "c2", 2⟩] := by
  decide

/-- C2: rTok is cryptographically valid for the refresh secret and is not a
member of the empty Session Registry, yet POST /users/refresh answers with a
fresh token pair instead of 403, because the membership guard tests the
un-awaited Promise. -/
theorem refresh_accepts_nonmember_token :
    jwtVerify rTok cSecrets.refresh 5 = VerifyResult.ok ⟨1, "a@b.c"⟩ ∧
    refreshTokenExistsInRedis [] rTok = false ∧
    (refreshHandler cSecrets [] (some rTok) 5).1 =
      RefreshResult.ok ⟨⟨1, "a@b.c"⟩, "access-secret", some 86400005, 5⟩
        ⟨⟨1, "a@b.c"⟩, "refresh-secret", none, 5⟩ := by
  decide

/-- C3: a first refresh with the live token rTok rotates the pair and leaves
a registry holding only the new refresh token, yet a second refresh reusing
rTok against that registry is again answered with a fresh pair instead of
being rejected, because the membership guard tests the un-awaited Promise. -/
theorem refresh_rotation_reuse_accepted :
    (refreshHandler cSecrets [rTok] (some rTok) 5).1 =
      RefreshResult.ok ⟨⟨1, "a@b.c"⟩, "access-secret", some 86400005, 5⟩
        ⟨⟨1, "a@b.c"⟩, "refresh-secret", none, 5⟩ ∧
    (refreshHandler cSecrets [rTok] (some rTok) 5).2 =
      [⟨⟨1, "a@b.c"⟩, "refresh-secret", none, 5⟩] ∧
    refreshTokenExistsInRedis
      ((refreshHandler cSecrets [rTok] (some rTok) 5).2) rTok = false ∧
    (refreshHandler cSecrets
        ((refreshHandler cSecrets [rTok] (some rTok) 5).2) (some rTok) 6).1 =
      RefreshResult.ok ⟨⟨1, "a@b.c"⟩, "access-secret", some 86400006, 6⟩
        ⟨⟨1, "a@b.c"⟩, "refresh-secret", none, 6⟩ := by
  decide

/-- C7: the store already holds a row with email a@b.c, yet registration with
that email and a different password is not answered 409: the handler checks
existence through findUserBasedOnCredentials, which matches only when the
stored password also equals the submitted one, so a second row with the same
email is inserted. -/
theorem register_existing_email_not_conflict :
    (c7Db.rows.filter (fun u => u.email == "a@b.c")).length = 1 ∧
    (registerHandler cSecrets c7Db c7Body 0).1 ≠ RegisterResult.conflict409 ∧
    ((registerHandler cSecrets c7Db c7Body 0).2.rows.filter
        (fun u => u.email == "a@b.c")).length = 2 := by
  decide

end EventsApi
